import Mathlib

/-!
Shallow embedding of the particle-effect core of `enhanced_graph.py`
(classes `Particle` and `ParticleSystem`, plus the particle-clearing part
of `EnhancedGraphWidget.clear_graph`).

Python floats are modelled as rationals (`ℚ`), Python `int()` as
truncation toward zero (`pyInt`), colors as explicit RGBA records, and
the `random.random()` draws performed inside `Particle.__init__` as
explicitly passed parameters `r1 r2 r3`.  Painter and view-box
collaborators of `ParticleSystem.draw` are modelled as records: the view
box's `mapViewToDevice` is a fallible map returning `Option`, which
covers both the `None` result and the exception swallowed by the
`try/except` in the source.
-/

/-- Python `int()` applied to a rational: truncation toward zero. -/
def pyInt (q : ℚ) : ℤ := Int.tdiv q.num q.den

/-- Python `round()` applied to a rational: round half to even. -/
def pyRound (q : ℚ) : ℤ :=
  if q - ⌊q⌋ < 1/2 then ⌊q⌋
  else if 1/2 < q - ⌊q⌋ then ⌊q⌋ + 1
  else if ⌊q⌋ % 2 = 0 then ⌊q⌋ else ⌊q⌋ + 1

/-- RGBA color, as the `QColor` values used by the source. -/
structure Color where
  r : ℤ
  g : ℤ
  b : ℤ
  a : ℤ
deriving DecidableEq, Repr

/-- `QColor.setAlpha`: replace the alpha channel. -/
def Color.setAlpha (c : Color) (v : ℤ) : Color := { c with a := v }

/-- State of `Particle`, fields in the order they are assigned in `__init__`. -/
structure Particle where
  x : ℚ
  y : ℚ
  start_x : ℚ
  start_y : ℚ
  effect_type : String
  life : ℚ
  max_life : ℚ
  size : ℚ
  velocity_x : ℚ
  velocity_y : ℚ
  color : Color
deriving DecidableEq, Repr

/-- `Particle.__init__(x, y, effect_type)`.  The three `random.random()`
draws a construction may perform are passed in as `r1 r2 r3`. -/
def Particle.init (x y : ℚ) (effect_type : String) (r1 r2 r3 : ℚ) : Particle :=
  let base : Particle :=
    { x := x, y := y, start_x := x, start_y := y, effect_type := effect_type,
      life := 1, max_life := 1, size := 3, velocity_x := 0, velocity_y := 0,
      color := Color.mk 102 187 106 255 }
  if effect_type = "celebration" then
    { base with velocity_x := (1/2 - r1) * 20, velocity_y := -10 - r2 * 15,
                size := 4 + r3 * 3, color := Color.mk 255 215 0 255 }
  else if effect_type = "sparkle" then
    { base with velocity_x := (1/2 - r1) * 5, velocity_y := (1/2 - r2) * 5,
                size := 2 + r3 * 2 }
  else if effect_type = "pulse" then
    { base with size := 8, color := Color.mk 102 187 106 200 }
  else base

/-- `Particle.update(dt)`: returns the mutated particle and the
`self.life > 0` liveness result. -/
def Particle.update (p : Particle) (dt : ℚ) : Particle × Bool :=
  let p1 : Particle := { p with life := p.life - dt * 2 }
  let p2 : Particle :=
    if p1.effect_type = "celebration" then
      { p1 with x := p1.x + p1.velocity_x * dt,
                y := p1.y + p1.velocity_y * dt,
                velocity_y := p1.velocity_y + 30 * dt }
    else if p1.effect_type = "sparkle" then
      { p1 with x := p1.x + p1.velocity_x * dt,
                y := p1.y + p1.velocity_y * dt }
    else if p1.effect_type = "pulse" then
      let pulse_progress : ℚ := 1 - p1.life
      let p1b : Particle := { p1 with size := 8 + pulse_progress * 20 }
      { p1b with color := p1b.color.setAlpha (max 0 (pyInt (200 * p1b.life))) }
    else p1
  let p3 : Particle :=
    if p2.effect_type ≠ "pulse" then
      { p2 with color := p2.color.setAlpha (max 0 (pyInt (255 * p2.life))) }
    else p2
  (p3, decide (0 < p3.life))

/-- The particle after `n` successive `update(dt)` calls. -/
def Particle.iterate (p : Particle) (dt : ℚ) : ℕ → Particle
  | 0 => p
  | n + 1 => ((p.iterate dt n).update dt).1

/-- State of `ParticleSystem`: the live particle list and the
`last_update` wall-clock timestamp. -/
structure ParticleSystem where
  particles : List Particle
  last_update : ℚ
deriving DecidableEq, Repr

/-- `ParticleSystem.add_celebration_burst(x, y, count)` (Python default
`count=8`); `rs` supplies the random draws of the `count` constructions. -/
def ParticleSystem.add_celebration_burst (s : ParticleSystem) (x y : ℚ)
    (count : ℕ) (rs : ℕ → ℚ × ℚ × ℚ) : ParticleSystem :=
  let fresh := (List.range count).map
    (fun i => Particle.init x y "celebration" (rs i).1 (rs i).2.1 (rs i).2.2)
  { s with particles := s.particles ++ fresh }

/-- `add_celebration_burst` with its Python default argument `count=8`. -/
def ParticleSystem.add_celebration_burst_default (s : ParticleSystem) (x y : ℚ)
    (rs : ℕ → ℚ × ℚ × ℚ) : ParticleSystem :=
  s.add_celebration_burst x y 8 rs

/-- `ParticleSystem.add_sparkles(x, y, count)` (Python default `count=3`). -/
def ParticleSystem.add_sparkles (s : ParticleSystem) (x y : ℚ)
    (count : ℕ) (rs : ℕ → ℚ × ℚ × ℚ) : ParticleSystem :=
  let fresh := (List.range count).map
    (fun i => Particle.init x y "sparkle" (rs i).1 (rs i).2.1 (rs i).2.2)
  { s with particles := s.particles ++ fresh }

/-- `add_sparkles` with its Python default argument `count=3`. -/
def ParticleSystem.add_sparkles_default (s : ParticleSystem) (x y : ℚ)
    (rs : ℕ → ℚ × ℚ × ℚ) : ParticleSystem :=
  s.add_sparkles x y 3 rs

/-- `ParticleSystem.add_pulse(x, y)`: a single pulse particle (the pulse
branch of `__init__` draws no random numbers, so none are consumed). -/
def ParticleSystem.add_pulse (s : ParticleSystem) (x y : ℚ) : ParticleSystem :=
  { s with particles := s.particles ++ [Particle.init x y "pulse" 0 0 0] }

/-- `ParticleSystem.update()`: `dt` is the wall-clock delta since
`last_update`; every particle is updated and only those reporting alive
are retained, in order. -/
def ParticleSystem.update (s : ParticleSystem) (current_time : ℚ) : ParticleSystem :=
  let dt := current_time - s.last_update
  { particles := ((s.particles.map (fun p => p.update dt)).filter (fun r => r.2)).map Prod.fst,
    last_update := current_time }

/-- The particle-clearing effect of `EnhancedGraphWidget.clear_graph`
(`self.particle_system.particles.clear()`). -/
def ParticleSystem.clear (s : ParticleSystem) : ParticleSystem :=
  { s with particles := [] }

/-- View box collaborator: `mapViewToDevice` converts a logical point to
device pixels; `none` models both a `None` result and a raised exception. -/
structure ViewBox where
  mapViewToDevice : ℚ × ℚ → Option (ℚ × ℚ)

/-- Plot-widget collaborator of `draw`: whether `getViewBox` exists as an
attribute, and what it returns (`none` models a `None` view box). -/
structure PlotWidget where
  hasGetViewBox : Bool
  getViewBox : Option ViewBox

/-- Painter commands issued by `ParticleSystem.draw`. -/
inductive DrawCmd where
  | setPen (c : Color)
  | setBrush (c : Color)
  | ellipse (x y w h : ℤ)
deriving DecidableEq, Repr

/-- Per-particle body of the loop in `ParticleSystem.draw`: map the
particle to device coordinates and emit painter commands, or emit
nothing when the mapping fails. -/
def drawParticle (vb : ViewBox) (particle : Particle) : List DrawCmd :=
  match vb.mapViewToDevice (particle.x, particle.y) with
  | none => []
  | some pixel_pos =>
      [DrawCmd.setPen particle.color, DrawCmd.setBrush particle.color] ++
      (if particle.effect_type = "pulse" then
        [DrawCmd.ellipse (pyInt (pixel_pos.1 - particle.size / 2))
          (pyInt (pixel_pos.2 - particle.size / 2)) (pyInt particle.size) (pyInt particle.size)]
      else
        [DrawCmd.ellipse (pyInt (pixel_pos.1 - particle.size / 2))
          (pyInt (pixel_pos.2 - particle.size / 2)) (pyInt particle.size) (pyInt particle.size)])

/-- `ParticleSystem.draw(painter, plot_widget)`: the painter command
trace.  Returns `[]` when `getViewBox` is missing or returns `None`. -/
def ParticleSystem.draw (s : ParticleSystem) (w : PlotWidget) : List DrawCmd :=
  if w.hasGetViewBox = false then []
  else
    match w.getViewBox with
    | none => []
    | some vb => s.particles.flatMap (fun particle => drawParticle vb particle)

/-! ### Helper lemmas about `pyInt` -/

theorem pyInt_eq_floor {q : ℚ} (h : 0 ≤ q) : pyInt q = ⌊q⌋ := by
  rw [pyInt, Rat.floor_def]
  exact Int.tdiv_eq_ediv (Rat.num_nonneg.mpr h) (Int.ofNat_nonneg _)

theorem pyInt_nonpos {q : ℚ} (h : q ≤ 0) : pyInt q ≤ 0 := by
  have hnum : q.num ≤ 0 := by
    by_contra hpos
    push_neg at hpos
    exact absurd (Rat.num_pos.mp hpos) (by linarith)
  have hden : (0 : ℤ) ≤ (q.den : ℤ) := Int.ofNat_nonneg _
  have h1 : 0 ≤ (-q.num).tdiv q.den := Int.tdiv_nonneg (by omega) hden
  rw [Int.neg_tdiv] at h1
  rw [pyInt]
  omega

/-! ### Characterization lemmas for `Particle.init` and `Particle.update` -/

theorem Particle.init_effect_type (x y : ℚ) (t : String) (r1 r2 r3 : ℚ) :
    (Particle.init x y t r1 r2 r3).effect_type = t := by
  rw [Particle.init]
  split_ifs <;> rfl

theorem Particle.init_life (x y : ℚ) (t : String) (r1 r2 r3 : ℚ) :
    (Particle.init x y t r1 r2 r3).life = 1 := by
  rw [Particle.init]
  split_ifs <;> rfl

theorem Particle.init_x (x y : ℚ) (t : String) (r1 r2 r3 : ℚ) :
    (Particle.init x y t r1 r2 r3).x = x := by
  rw [Particle.init]
  split_ifs <;> rfl

theorem Particle.init_y (x y : ℚ) (t : String) (r1 r2 r3 : ℚ) :
    (Particle.init x y t r1 r2 r3).y = y := by
  rw [Particle.init]
  split_ifs <;> rfl

theorem Particle.update_life (p : Particle) (dt : ℚ) :
    (p.update dt).1.life = p.life - dt * 2 := by
  rw [Particle.update]
  split_ifs <;> rfl

theorem Particle.update_snd (p : Particle) (dt : ℚ) :
    (p.update dt).2 = decide (0 < p.life - dt * 2) := by
  rw [Particle.update]
  split_ifs <;> rfl

theorem Particle.update_effect (p : Particle) (dt : ℚ) :
    (p.update dt).1.effect_type = p.effect_type := by
  rw [Particle.update]
  split_ifs <;> rfl

theorem Particle.update_sparkle (p : Particle) (dt : ℚ) (h : p.effect_type = "sparkle") :
    p.update dt =
      (Particle.mk (p.x + p.velocity_x * dt) (p.y + p.velocity_y * dt) p.start_x p.start_y
        p.effect_type (p.life - dt * 2) p.max_life p.size p.velocity_x p.velocity_y
        (p.color.setAlpha (max 0 (pyInt (255 * (p.life - dt * 2))))),
       decide (0 < p.life - dt * 2)) := by
  simp [Particle.update, h]

theorem Particle.update_celebration (p : Particle) (dt : ℚ) (h : p.effect_type = "celebration") :
    p.update dt =
      (Particle.mk (p.x + p.velocity_x * dt) (p.y + p.velocity_y * dt) p.start_x p.start_y
        p.effect_type (p.life - dt * 2) p.max_life p.size p.velocity_x
        (p.velocity_y + 30 * dt)
        (p.color.setAlpha (max 0 (pyInt (255 * (p.life - dt * 2))))),
       decide (0 < p.life - dt * 2)) := by
  simp [Particle.update, h]

theorem Particle.update_pulse (p : Particle) (dt : ℚ) (h : p.effect_type = "pulse") :
    p.update dt =
      (Particle.mk p.x p.y p.start_x p.start_y p.effect_type (p.life - dt * 2) p.max_life
        (8 + (1 - (p.life - dt * 2)) * 20) p.velocity_x p.velocity_y
        (p.color.setAlpha (max 0 (pyInt (200 * (p.life - dt * 2))))),
       decide (0 < p.life - dt * 2)) := by
  simp [Particle.update, h]

theorem Particle.update_other (p : Particle) (dt : ℚ) (h1 : p.effect_type ≠ "celebration")
    (h2 : p.effect_type ≠ "sparkle") (h3 : p.effect_type ≠ "pulse") :
    p.update dt =
      (Particle.mk p.x p.y p.start_x p.start_y p.effect_type (p.life - dt * 2) p.max_life
        p.size p.velocity_x p.velocity_y
        (p.color.setAlpha (max 0 (pyInt (255 * (p.life - dt * 2))))),
       decide (0 < p.life - dt * 2)) := by
  simp [Particle.update, h1, h2, h3]

theorem Particle.update_alpha (p : Particle) (dt : ℚ) :
    (p.update dt).1.color.a =
      max 0 (pyInt ((if p.effect_type = "pulse" then (200 : ℚ) else 255) * (p.life - dt * 2))) := by
  by_cases h1 : p.effect_type = "celebration"
  · rw [Particle.update_celebration p dt h1]
    simp [Color.setAlpha, h1]
  · by_cases h2 : p.effect_type = "sparkle"
    · rw [Particle.update_sparkle p dt h2]
      simp [Color.setAlpha, h2]
    · by_cases h3 : p.effect_type = "pulse"
      · rw [Particle.update_pulse p dt h3]
        simp [Color.setAlpha, h3]
      · rw [Particle.update_other p dt h1 h2 h3]
        simp [Color.setAlpha, h3]

theorem Particle.iterate_life (p : Particle) (dt : ℚ) (n : ℕ) :
    (p.iterate dt n).life = p.life - n * (dt * 2) := by
  induction n with
  | zero => simp [Particle.iterate]
  | succ k ih =>
      rw [Particle.iterate, Particle.update_life, ih]
      push_cast
      ring

/-! ### Claim theorems -/

/-- C1: after any `ParticleSystem.update` call, every particle still in
the live collection satisfies `life > 0`, and the survivors appear in the
same relative order as before the call (the updated collection is a
sublist of the updated originals, in order). -/
theorem C1_system_update_alive_ordered (s : ParticleSystem) (t : ℚ) :
    (∀ q ∈ (s.update t).particles, 0 < q.life) ∧
    ((s.update t).particles).Sublist
      (s.particles.map (fun p => (p.update (t - s.last_update)).1)) := by
  constructor
  · intro q hq
    simp only [ParticleSystem.update, List.mem_map] at hq
    obtain ⟨r, hr, rfl⟩ := hq
    obtain ⟨hrl, hrtrue⟩ := List.mem_filter.mp hr
    simp only [List.mem_map] at hrl
    obtain ⟨p, _, rfl⟩ := hrl
    rw [Particle.update_snd] at hrtrue
    rw [Particle.update_life]
    exact of_decide_eq_true hrtrue
  · have h1 : ((s.particles.map (fun p => p.update (t - s.last_update))).filter
        (fun r => r.2)).Sublist (s.particles.map fun p => p.update (t - s.last_update)) :=
      List.filter_sublist _
    have h2 := h1.map Prod.fst
    rw [List.map_map] at h2
    exact h2

/-- C2: `Particle.update(dt)` decreases `life` by exactly `2*dt`, and
returns `True` exactly when the new life is strictly positive, so a
particle whose new life is exactly 0 is reported dead. -/
theorem C2_update_life_decrement (p : Particle) (dt : ℚ) (h : 0 ≤ dt) :
    (p.update dt).1.life = p.life - 2 * dt ∧
    ((p.update dt).2 = true ↔ 0 < p.life - 2 * dt) ∧
    (p.life - 2 * dt = 0 → (p.update dt).2 = false) := by
  refine ⟨?_, ?_, ?_⟩
  · rw [Particle.update_life]; ring
  · rw [Particle.update_snd]
    rw [show p.life - dt * 2 = p.life - 2 * dt by ring]
    exact decide_eq_true_iff
  · intro hz
    rw [Particle.update_snd]
    rw [show p.life - dt * 2 = p.life - 2 * dt by ring, hz]
    simp

/-- C2 witness: concrete instance at a fresh sparkle particle and dt = 1/10. -/
theorem C2_update_life_decrement_witness :
    0 ≤ (1/10 : ℚ) ∧
    (((Particle.init 0 0 "sparkle" 0 0 0).update (1/10)).1.life
        = (Particle.init 0 0 "sparkle" 0 0 0).life - 2 * (1/10) ∧
      (((Particle.init 0 0 "sparkle" 0 0 0).update (1/10)).2 = true ↔
        0 < (Particle.init 0 0 "sparkle" 0 0 0).life - 2 * (1/10)) ∧
      ((Particle.init 0 0 "sparkle" 0 0 0).life - 2 * (1/10) = 0 →
        ((Particle.init 0 0 "sparkle" 0 0 0).update (1/10)).2 = false)) :=
  ⟨by norm_num, C2_update_life_decrement (Particle.init 0 0 "sparkle" 0 0 0) (1/10) (by norm_num)⟩

/-- C7: the particle-clearing step of `clear_graph` empties the live
particle collection regardless of its prior contents. -/
theorem C7_clear_empties (s : ParticleSystem) : (ParticleSystem.clear s).particles = [] := rfl

/-- C3 counterexample: at `dt = 1/4` the claimed call bound
`ceil(0.5 / (2*dt))` equals 1, yet the first `update` call on a freshly
constructed particle still returns `True` (life is then 1/2 > 0), so the
particle does not report death within the claimed number of calls. -/
theorem C3_counterexample :
    ⌈(1/2 : ℚ) / (2 * (1/4))⌉ = 1 ∧
    ((Particle.init 0 0 "sparkle" 0 0 0).update (1/4)).2 = true := by
  constructor
  · rw [show (1/2 : ℚ) / (2 * (1/4)) = 1 by norm_num]
    exact Int.ceil_one
  · rw [Particle.update_snd, Particle.init_life]
    apply decide_eq_true
    norm_num

/-- C3 amended: for a freshly constructed particle and any fixed `dt > 0`,
repeated `update(dt)` calls return `False` within `ceil(0.5 / dt)` calls
(the call with that index already reports death), and no call returns
`True` turned `False` early: whenever the life remaining before a call
still exceeds `2*dt`, that call returns `True`. -/
theorem C3_amended (x y : ℚ) (t : String) (r1 r2 r3 dt : ℚ) (hdt : 0 < dt) :
    (((Particle.init x y t r1 r2 r3).iterate dt (⌈(1/2 : ℚ) / dt⌉.toNat - 1)).update dt).2
      = false ∧
    (∀ n : ℕ, 0 < ((Particle.init x y t r1 r2 r3).iterate dt n).life - 2 * dt →
      (((Particle.init x y t r1 r2 r3).iterate dt n).update dt).2 = true) := by
  constructor
  · rw [Particle.update_snd]
    apply decide_eq_false
    rw [Particle.iterate_life, Particle.init_life]
    have hquot : (0 : ℚ) < (1/2) / dt := by positivity
    have hceil : (0 : ℤ) < ⌈(1/2 : ℚ) / dt⌉ := Int.ceil_pos.mpr hquot
    have htn : (1 : ℕ) ≤ ⌈(1/2 : ℚ) / dt⌉.toNat := by omega
    have hle : (1/2 : ℚ) / dt ≤ (⌈(1/2 : ℚ) / dt⌉ : ℚ) := Int.le_ceil _
    have htn' : ((⌈(1/2 : ℚ) / dt⌉.toNat : ℚ)) = ((⌈(1/2 : ℚ) / dt⌉ : ℚ)) := by
      exact_mod_cast congrArg (fun z : ℤ => (z : ℚ)) (Int.toNat_of_nonneg hceil.le)
    have hcast : ((⌈(1/2 : ℚ) / dt⌉.toNat - 1 : ℕ) : ℚ) = (⌈(1/2 : ℚ) / dt⌉ : ℚ) - 1 := by
      rw [Nat.cast_sub htn, htn', Nat.cast_one]
    rw [hcast]
    have hmul : (1 : ℚ) ≤ (⌈(1/2 : ℚ) / dt⌉ : ℚ) * (2 * dt) := by
      have h0 : ((1/2 : ℚ) / dt) * (2 * dt) = 1 := by field_simp
      calc (1 : ℚ) = ((1/2 : ℚ) / dt) * (2 * dt) := h0.symm
        _ ≤ (⌈(1/2 : ℚ) / dt⌉ : ℚ) * (2 * dt) := by
            apply mul_le_mul_of_nonneg_right hle
            positivity
    push_neg
    nlinarith [hmul]
  · intro n hn
    rw [Particle.update_snd]
    apply decide_eq_true
    linarith

/-- C3 amended witness: concrete instance at `dt = 1/5`, where the bound
`ceil(0.5 / dt)` is 3 and the third call indeed reports death. -/
theorem C3_amended_witness :
    0 < (1/5 : ℚ) ∧
    (((Particle.init 0 0 "pulse" 0 0 0).iterate (1/5) (⌈(1/2 : ℚ) / (1/5)⌉.toNat - 1)).update
        (1/5)).2 = false :=
  ⟨by norm_num, (C3_amended 0 0 "pulse" 0 0 0 (1/5) (by norm_num)).1⟩

/-- C4 counterexample: a fresh sparkle particle updated with
`dt = 1/2000` has new life `999/1000`; the code stores alpha
`int(255 * life) = 254` (truncation), while the claimed formula
`round(255 * life)` gives 255, so the claim's alpha formula fails. -/
theorem C4_counterexample :
    ((Particle.init 0 0 "sparkle" 0 0 0).update (1/2000)).1.color.a = 254 ∧
    max 0 (pyRound (255 * ((Particle.init 0 0 "sparkle" 0 0 0).update (1/2000)).1.life)) = 255 := by
  have hlife : ((Particle.init 0 0 "sparkle" 0 0 0).update (1/2000)).1.life = 999/1000 := by
    rw [Particle.update_life, Particle.init_life]
    norm_num
  have harg : (255 : ℚ) * (999/1000) = 50949/200 := by norm_num
  have hfl : ⌊(50949/200 : ℚ)⌋ = 254 := by
    rw [Int.floor_eq_iff] <;> norm_num
  constructor
  · rw [Particle.update_alpha, Particle.init_effect_type, Particle.init_life]
    rw [show (1 : ℚ) - 1/2000 * 2 = 999/1000 by norm_num]
    simp only [show ("sparkle" = "pulse") = False by simp, if_false]
    rw [harg, pyInt_eq_floor (by norm_num), hfl]
    norm_num
  · rw [hlife, harg, pyRound, hfl]
    norm_num

/-- C4 amended: after every `Particle.update(dt)` call the alpha equals
the per-type formula clamped below at 0, with Python `int()` truncation
rather than rounding: `int(200*life)` for pulse particles (never
overwritten by the 255-based formula) and `int(255*life)` for every
other effect type. -/
theorem C4_amended (p : Particle) (dt : ℚ) :
    (p.update dt).1.color.a =
      max 0 (pyInt ((if p.effect_type = "pulse" then (200 : ℚ) else 255)
        * (p.update dt).1.life)) := by
  rw [Particle.update_alpha, Particle.update_life]

/-- C5: `Particle.update` leaves a pulse particle's position unchanged
and sets `size = 8 + 20*(1 - life)` for the new life, so size is 8
exactly when the new life is 1, and over updates with `dt ≥ 0` the size
never decreases (given the size/life relation that every pulse particle
satisfies from birth). -/
theorem C5_pulse_geometry (p : Particle) (dt : ℚ) (hp : p.effect_type = "pulse")
    (hdt : 0 ≤ dt) :
    (p.update dt).1.x = p.x ∧ (p.update dt).1.y = p.y ∧
    (p.update dt).1.size = 8 + 20 * (1 - (p.update dt).1.life) ∧
    ((p.update dt).1.life = 1 → (p.update dt).1.size = 8) ∧
    (p.size = 8 + 20 * (1 - p.life) → p.size ≤ (p.update dt).1.size) := by
  rw [Particle.update_pulse p dt hp]
  refine ⟨rfl, rfl, by show 8 + (1 - (p.life - dt * 2)) * 20 = 8 + 20 * (1 - (p.life - dt * 2)); ring, ?_, ?_⟩
  · intro h
    have h' : p.life - dt * 2 = 1 := h
    show 8 + (1 - (p.life - dt * 2)) * 20 = 8
    rw [h']
    norm_num
  · intro hsz
    show p.size ≤ 8 + (1 - (p.life - dt * 2)) * 20
    rw [hsz]
    nlinarith

/-- C5 witness: a freshly added pulse particle at `dt = 1/10`. -/
theorem C5_pulse_geometry_witness :
    (Particle.init 0 0 "pulse" 0 0 0).effect_type = "pulse" ∧ 0 ≤ (1/10 : ℚ) ∧
    (((Particle.init 0 0 "pulse" 0 0 0).update (1/10)).1.x = (Particle.init 0 0 "pulse" 0 0 0).x ∧
     ((Particle.init 0 0 "pulse" 0 0 0).update (1/10)).1.y = (Particle.init 0 0 "pulse" 0 0 0).y ∧
     ((Particle.init 0 0 "pulse" 0 0 0).update (1/10)).1.size
        = 8 + 20 * (1 - ((Particle.init 0 0 "pulse" 0 0 0).update (1/10)).1.life) ∧
     (((Particle.init 0 0 "pulse" 0 0 0).update (1/10)).1.life = 1 →
        ((Particle.init 0 0 "pulse" 0 0 0).update (1/10)).1.size = 8) ∧
     ((Particle.init 0 0 "pulse" 0 0 0).size
        = 8 + 20 * (1 - (Particle.init 0 0 "pulse" 0 0 0).life) →
        (Particle.init 0 0 "pulse" 0 0 0).size
          ≤ ((Particle.init 0 0 "pulse" 0 0 0).update (1/10)).1.size)) :=
  ⟨Particle.init_effect_type 0 0 "pulse" 0 0 0, by norm_num,
   C5_pulse_geometry (Particle.init 0 0 "pulse" 0 0 0) (1/10)
     (Particle.init_effect_type 0 0 "pulse" 0 0 0) (by norm_num)⟩

/-- Every particle built by mapping `Particle.init` with a fixed type and
position over an index list carries that type and position. -/
theorem all_init_map (x y : ℚ) (t : String) (l : List ℕ) (rs : ℕ → ℚ × ℚ × ℚ) :
    (l.map (fun i => Particle.init x y t (rs i).1 (rs i).2.1 (rs i).2.2)).all
      (fun p => decide (p.effect_type = t ∧ p.x = x ∧ p.y = y)) = true := by
  simp only [List.all_eq_true, List.mem_map, decide_eq_true_iff]
  rintro b ⟨i, _, rfl⟩
  exact ⟨Particle.init_effect_type x y t _ _ _, Particle.init_x x y t _ _ _,
    Particle.init_y x y t _ _ _⟩

/-- C6: `add_celebration_burst` appends exactly `count` celebration
particles at `(x, y)`, `add_sparkles` appends exactly `count` sparkle
particles, `add_pulse` appends exactly one pulse particle, the existing
prefix of the collection is untouched, and the Python defaults are
`count=8` and `count=3`. -/
theorem C6_add_functions (s : ParticleSystem) (x y : ℚ) (count : ℕ)
    (rs : ℕ → ℚ × ℚ × ℚ) :
    (s.add_celebration_burst x y count rs).particles.length = s.particles.length + count ∧
    (s.add_celebration_burst x y count rs).particles.take s.particles.length = s.particles ∧
    ((s.add_celebration_burst x y count rs).particles.drop s.particles.length).all
        (fun p => decide (p.effect_type = "celebration" ∧ p.x = x ∧ p.y = y)) = true ∧
    (s.add_sparkles x y count rs).particles.length = s.particles.length + count ∧
    (s.add_sparkles x y count rs).particles.take s.particles.length = s.particles ∧
    ((s.add_sparkles x y count rs).particles.drop s.particles.length).all
        (fun p => decide (p.effect_type = "sparkle" ∧ p.x = x ∧ p.y = y)) = true ∧
    (s.add_pulse x y).particles.length = s.particles.length + 1 ∧
    (s.add_pulse x y).particles.take s.particles.length = s.particles ∧
    ((s.add_pulse x y).particles.drop s.particles.length).all
        (fun p => decide (p.effect_type = "pulse" ∧ p.x = x ∧ p.y = y)) = true ∧
    s.add_celebration_burst_default x y rs = s.add_celebration_burst x y 8 rs ∧
    s.add_sparkles_default x y rs = s.add_sparkles x y 3 rs := by
  have hc : (s.add_celebration_burst x y count rs).particles
      = s.particles ++ (List.range count).map
          (fun i => Particle.init x y "celebration" (rs i).1 (rs i).2.1 (rs i).2.2) := rfl
  have hs : (s.add_sparkles x y count rs).particles
      = s.particles ++ (List.range count).map
          (fun i => Particle.init x y "sparkle" (rs i).1 (rs i).2.1 (rs i).2.2) := rfl
  have hp : (s.add_pulse x y).particles
      = s.particles ++ [Particle.init x y "pulse" 0 0 0] := rfl
  refine ⟨?_, ?_, ?_, ?_, ?_, ?_, ?_, ?_, ?_, rfl, rfl⟩
  · rw [hc]; simp
  · rw [hc, List.take_left]
  · rw [hc, List.drop_left]
    exact all_init_map x y "celebration" (List.range count) rs
  · rw [hs]; simp
  · rw [hs, List.take_left]
  · rw [hs, List.drop_left]
    exact all_init_map x y "sparkle" (List.range count) rs
  · rw [hp]; simp
  · rw [hp, List.take_left]
  · rw [hp, List.drop_left]
    simp [Particle.init_effect_type, Particle.init_x, Particle.init_y]

/-- C8: an unrecognized `effect_type` does not fail: construction falls
through to the neutral default (zero velocity, default green color),
and every update on such a particle keeps its position while still
decrementing life and applying the 255-based alpha fade. -/
theorem C8_unknown_effect_type (x y : ℚ) (t : String) (r1 r2 r3 dt : ℚ)
    (h1 : t ≠ "celebration") (h2 : t ≠ "sparkle") (h3 : t ≠ "pulse") :
    ((Particle.init x y t r1 r2 r3).velocity_x = 0 ∧
     (Particle.init x y t r1 r2 r3).velocity_y = 0 ∧
     (Particle.init x y t r1 r2 r3).color = Color.mk 102 187 106 255) ∧
    (∀ p : Particle, p.effect_type = t →
      (p.update dt).1.x = p.x ∧ (p.update dt).1.y = p.y ∧
      (p.update dt).1.effect_type = t ∧
      (p.update dt).1.life = p.life - 2 * dt ∧
      (p.update dt).1.color.a = max 0 (pyInt (255 * (p.life - 2 * dt)))) := by
  constructor
  · rw [Particle.init, if_neg h1, if_neg h2, if_neg h3]
    exact ⟨rfl, rfl, rfl⟩
  · intro p hpt
    have g1 : p.effect_type ≠ "celebration" := by rw [hpt]; exact h1
    have g2 : p.effect_type ≠ "sparkle" := by rw [hpt]; exact h2
    have g3 : p.effect_type ≠ "pulse" := by rw [hpt]; exact h3
    rw [Particle.update_other p dt g1 g2 g3]
    refine ⟨rfl, rfl, hpt, by show p.life - dt * 2 = p.life - 2 * dt; ring, ?_⟩
    show max 0 (pyInt (255 * (p.life - dt * 2))) = max 0 (pyInt (255 * (p.life - 2 * dt)))
    rw [show p.life - dt * 2 = p.life - 2 * dt by ring]

/-- C8 witness: concrete unknown type "bogus". -/
theorem C8_unknown_effect_type_witness :
    ("bogus" ≠ "celebration" ∧ "bogus" ≠ "sparkle" ∧ "bogus" ≠ "pulse") ∧
    ((Particle.init 1 2 "bogus" 0 0 0).velocity_x = 0 ∧
     (Particle.init 1 2 "bogus" 0 0 0).velocity_y = 0 ∧
     (Particle.init 1 2 "bogus" 0 0 0).color = Color.mk 102 187 106 255) :=
  ⟨⟨by decide, by decide, by decide⟩,
   (C8_unknown_effect_type 1 2 "bogus" 0 0 0 (1/10)
     (by decide) (by decide) (by decide)).1⟩

/-- C9: `draw` is a no-op when the plot widget lacks `getViewBox` or its
view box is `None`; a particle whose coordinate mapping fails is skipped
without affecting the commands drawn for the other particles (the
particle collection itself is untouched: `draw` only reads it). -/
theorem C9_draw_noop_and_skip (s : ParticleSystem) (w : PlotWidget) (vb : ViewBox)
    (l1 l2 : List Particle) (p : Particle) (t : ℚ) :
    (w.hasGetViewBox = false → s.draw w = []) ∧
    (w.getViewBox = none → s.draw w = []) ∧
    (vb.mapViewToDevice (p.x, p.y) = none →
      (ParticleSystem.mk (l1 ++ p :: l2) t).draw (PlotWidget.mk true (some vb)) =
        (ParticleSystem.mk (l1 ++ l2) t).draw (PlotWidget.mk true (some vb))) := by
  refine ⟨?_, ?_, ?_⟩
  · intro h
    simp [ParticleSystem.draw, h]
  · intro h
    rw [ParticleSystem.draw, h]
    simp
  · intro h
    simp [ParticleSystem.draw, List.flatMap_append, List.flatMap_cons, drawParticle, h]

/-- C9 witness: a single particle whose mapping fails; both sides of the
skip equation evaluate to the empty command list. -/
theorem C9_draw_noop_and_skip_witness :
    (ViewBox.mk (fun _ => none)).mapViewToDevice
        ((Particle.init 3 4 "sparkle" 0 0 0).x, (Particle.init 3 4 "sparkle" 0 0 0).y) = none ∧
    (ParticleSystem.mk ([] ++ Particle.init 3 4 "sparkle" 0 0 0 :: []) 0).draw
        (PlotWidget.mk true (some (ViewBox.mk (fun _ => none)))) =
      (ParticleSystem.mk ([] ++ []) 0).draw
        (PlotWidget.mk true (some (ViewBox.mk (fun _ => none)))) :=
  ⟨rfl,
   (C9_draw_noop_and_skip (ParticleSystem.mk [] 0) (PlotWidget.mk true none)
     (ViewBox.mk (fun _ => none)) [] [] (Particle.init 3 4 "sparkle" 0 0 0) 0).2.2 rfl⟩

/-- C10: whenever `Particle.update(dt)` reports the particle dead, the
stored alpha is exactly 0 for every effect type, so an expired particle
is fully transparent even before it is culled. -/
theorem C10_dead_is_transparent (p : Particle) (dt : ℚ) (hdt : 0 ≤ dt)
    (hdead : (p.update dt).2 = false) :
    (p.update dt).1.color.a = 0 := by
  have hle : p.life - dt * 2 ≤ 0 := by
    rw [Particle.update_snd] at hdead
    exact not_lt.mp (of_decide_eq_false hdead)
  rw [Particle.update_alpha]
  have hc : (if p.effect_type = "pulse" then (200 : ℚ) else 255) * (p.life - dt * 2) ≤ 0 := by
    split_ifs <;> nlinarith
  have h2 := pyInt_nonpos hc
  omega

/-- C10 witness: a fresh sparkle particle with `dt = 1` expires on the
first call and its alpha is then exactly 0. -/
theorem C10_dead_is_transparent_witness :
    0 ≤ (1 : ℚ) ∧ ((Particle.init 0 0 "sparkle" 0 0 0).update 1).2 = false ∧
    ((Particle.init 0 0 "sparkle" 0 0 0).update 1).1.color.a = 0 := by
  have hdead : ((Particle.init 0 0 "sparkle" 0 0 0).update 1).2 = false := by
    rw [Particle.update_snd, Particle.init_life]
    apply decide_eq_false
    norm_num
  exact ⟨by norm_num, hdead,
    C10_dead_is_transparent (Particle.init 0 0 "sparkle" 0 0 0) 1 (by norm_num) hdead⟩
